import Mathlib

/-!
Shallow embedding of the OpenRouter client library (Rust) core:
the error taxonomy (src/error.rs), the authentication strategy
(src/auth.rs), the response-classification pipeline
(src/client.rs, Client::handle_response and Client::get_model),
and the response accessors (src/types.rs).

Modelling conventions:
- Rust u16/u64/usize become Nat, i32 becomes Int; where the source's
  integer parsing can overflow u64 the bound 2^64 - 1 is checked
  explicitly.
- The opaque serialization capability (serde_json) is a parameter:
  `decode` models `serde_json::from_str::<T>` (returning the serde error
  message on failure) and `parseEnv` models
  `serde_json::from_str::<ErrorResponse>` (the source only inspects
  success via `if let Ok`).
- `reqwest::header::HeaderMap` is modelled as an association list of
  (name, value) strings; `HeaderMap::insert` replaces any existing entry
  for the name.
- A Rust panic (the `.unwrap()` calls in `ApiKeyAuth::apply`) is
  modelled as `none`; the `Result` channel of that function is always
  `Ok(())` in the source, so `some` carries the updated header map.
- Header bytes are modelled as unicode scalar values; the byte-wise
  validity predicates of the http crate are point-wise, and every byte
  of a multi-byte UTF-8 character is at least 128, so the char-wise
  checks below coincide with the source's byte-wise checks.
-/

namespace OpenRouter

/-- Vendor error detail, from src/types.rs (struct ErrorDetail): message,
optional type string, optional i32 code. -/
structure ErrorDetail where
  message : String
  error_type : Option String
  code : Option Int
deriving DecidableEq

/-- Vendor error envelope, from src/types.rs (struct ErrorResponse). -/
structure ErrorResponse where
  error : ErrorDetail
deriving DecidableEq

/-- The error taxonomy, from src/error.rs (enum OpenRouterError). The
`Request` variant carries a reqwest transport error and the `Json` variant a
serde_json error; both payloads are modelled by their message string. -/
inductive OpenRouterError where
  | Request (message : String)
  | Api (status : Nat) (message : String)
  | RateLimited (retry_after : Nat)
  | Unauthorized
  | Forbidden (message : String)
  | NotFound (message : String)
  | Json (message : String)
  | InvalidRequest (message : String)
  | ServerError (message : String)
  | ContextLengthExceeded (message : String)
  | InsufficientCredits (message : String)
  | ModelNotAvailable (message : String)
deriving DecidableEq

/-- Human-readable rendering of each error kind, from the thiserror
`#[error("...")]` attributes in src/error.rs. -/
def OpenRouterError.display : OpenRouterError → String
  | .Request m => "Request failed: " ++ m
  | .Api status message => "API error (" ++ toString status ++ "): " ++ message
  | .RateLimited r => "Rate limited, retry after " ++ toString r ++ "s"
  | .Unauthorized => "Unauthorized: invalid API key"
  | .Forbidden m => "Forbidden: " ++ m
  | .NotFound m => "Not found: " ++ m
  | .Json m => "JSON error: " ++ m
  | .InvalidRequest m => "Invalid request: " ++ m
  | .ServerError m => "Server error: " ++ m
  | .ContextLengthExceeded m => "Context length exceeded: " ++ m
  | .InsufficientCredits m => "Insufficient credits: " ++ m
  | .ModelNotAvailable m => "Model not available: " ++ m

/-- Largest value of Rust's u64. -/
def U64_MAX : Nat := 18446744073709551615

/-- ASCII digit test, as performed by `char::to_digit(10)` in the Rust
integer parser: code point between 48 and 57. -/
def isAsciiDigit (c : Char) : Bool :=
  48 ≤ c.toNat && c.toNat ≤ 57

/-- Numeric value of a digit string, most significant digit first. -/
def digitsValue (ds : List Char) : Nat :=
  ds.foldl (fun acc c => acc * 10 + (c.toNat - 48)) 0

/-- Rust `str::parse::<u64>()` (core's `from_str_radix` at radix 10,
instantiated at the unsigned type u64). An empty string is
`Err(Empty)`; a lone sign is `Err(InvalidDigit)`; a leading plus is
skipped; a leading minus is stripped only for signed types, so for u64
it is left in place and fails the digit test (hence every string
starting with a minus, including -0, is `Err(InvalidDigit)`); any other
non-digit is `Err(InvalidDigit)`; accumulation is checked against u64
overflow, equivalently the final value must fit in u64. `Err` is
modelled as `none`. -/
def parseU64 (s : String) : Option Nat :=
  let cs := s.data
  if cs.isEmpty then none
  else
    let ds := if cs.head? = some '+' then cs.tail else cs
    if ds.isEmpty then none
    else if ds.all isAsciiDigit then
      if digitsValue ds ≤ U64_MAX then some (digitsValue ds) else none
    else none

/-- Validity of a byte inside the http crate's `HeaderValue::to_str`
(is_visible_ascii): at least 32 and below 127, or horizontal tab. -/
def isVisibleAscii (c : Char) : Bool :=
  (32 ≤ c.toNat && c.toNat < 127) || c.toNat = 9

/-- Model of `HeaderValue::to_str().ok()`: succeeds exactly when every
byte is visible ASCII (or tab). -/
def headerValueToStr (s : String) : Option String :=
  if s.data.all isVisibleAscii then some s else none

/-- Validity of a byte inside the http crate's `HeaderValue::from_str`
(is_valid): at least 32 and not 127, or horizontal tab. Bytes of
multi-byte UTF-8 characters are at least 128, hence valid, so the
char-wise check matches the byte-wise one. -/
def isValidHeaderValueByte (c : Char) : Bool :=
  (32 ≤ c.toNat && c.toNat ≠ 127) || c.toNat = 9

/-- Model of `"...".parse::<HeaderValue>()` (http's
`HeaderValue::from_str`): succeeds exactly when every byte is valid per
`isValidHeaderValueByte`. -/
def parseHeaderValue (s : String) : Option String :=
  if s.data.all isValidHeaderValueByte then some s else none

/-- Header map modelled as an association list of (name, value). -/
def Headers : Type := List (String × String)

/-- Model of `HeaderMap::insert`: replaces any existing entry for the
name and records the new value. -/
def insertHeader (headers : Headers) (name value : String) : Headers :=
  List.filter (fun p => p.1 != name) headers ++ [(name, value)]

/-- API key authentication strategy, from src/auth.rs (struct ApiKeyAuth). -/
structure ApiKeyAuth where
  api_key : String
  site_url : Option String
  site_name : Option String
deriving DecidableEq

/-- ApiKeyAuth::new from src/auth.rs. -/
def ApiKeyAuth.new (api_key : String) : ApiKeyAuth :=
  { api_key := api_key, site_url := none, site_name := none }

/-- ApiKeyAuth::with_site_url from src/auth.rs. -/
def ApiKeyAuth.with_site_url (a : ApiKeyAuth) (url : String) : ApiKeyAuth :=
  { a with site_url := some url }

/-- ApiKeyAuth::with_site_name from src/auth.rs. -/
def ApiKeyAuth.with_site_name (a : ApiKeyAuth) (name : String) : ApiKeyAuth :=
  { a with site_name := some name }

/-- ApiKeyAuth::apply from src/auth.rs. Sets Authorization to
"Bearer " ++ key, then HTTP-Referer from site_url if present, then
X-Title from site_name if present. Each value goes through
`.parse().unwrap()`: an invalid header value makes the source panic,
modelled as `none`. The function's `Result` channel is always `Ok(())`
in the source, so `some headers` models a normal return. -/
def ApiKeyAuth.apply (a : ApiKeyAuth) (headers : Headers) : Option Headers := do
  let auth_value ← parseHeaderValue ("Bearer " ++ a.api_key)
  let headers := insertHeader headers "Authorization" auth_value
  let headers ←
    match a.site_url with
    | none => pure headers
    | some url => do
        let v ← parseHeaderValue url
        pure (insertHeader headers "HTTP-Referer" v)
  let headers ←
    match a.site_name with
    | none => pure headers
    | some name => do
        let v ← parseHeaderValue name
        pure (insertHeader headers "X-Title" v)
  pure headers

/-- The retry-after extraction of Client::handle_response from
src/client.rs: read the retry-after header, `to_str().ok()`, then
`parse::<u64>().ok()`. -/
def parseRetryAfter (header : Option String) : Option Nat :=
  (header.bind headerValueToStr).bind parseU64

/-- Client::handle_response from src/client.rs, parameterized by the
opaque serde capabilities. `decode` models
`serde_json::from_str::<T>(&body)` on the success path, returning the
serde error message on failure; `parseEnv` models
`serde_json::from_str::<ErrorResponse>(&body)` on the error path.
`status` is the u16 status code, `retryAfterHeader` the raw retry-after
header value if present, `body` the response text. The Rust
`match status_code` with literal arms and the range arm 500..=599 is an
ordered equality-test chain, rendered as the if-chain below. -/
def handleResponse {T : Type} (decode : String → Except String T)
    (parseEnv : String → Option ErrorResponse)
    (status : Nat) (retryAfterHeader : Option String) (body : String) :
    Except OpenRouterError T :=
  let retry_after : Option Nat := parseRetryAfter retryAfterHeader
  if 200 ≤ status ∧ status < 300 then
    match decode body with
    | .ok t => .ok t
    | .error e => .error (.Json e)
  else
    match parseEnv body with
    | some errorResponse =>
      let message := errorResponse.error.message
      let code := errorResponse.error.code
      .error <|
        if status = 401 then .Unauthorized
        else if status = 402 then .InsufficientCredits message
        else if status = 403 then .Forbidden message
        else if status = 404 then .NotFound message
        else if status = 429 then .RateLimited (retry_after.getD 60)
        else if 500 ≤ status ∧ status ≤ 599 then .ServerError message
        else if code = some 400 then .InvalidRequest message
        else if code = some 404 then .ModelNotAvailable message
        else .Api status message
    | none => .error (.Api status body)

/-- Model pricing information, from src/types.rs (struct ModelPricing). -/
structure ModelPricing where
  prompt : String
  completion : String
  image : Option String
  request : Option String
deriving DecidableEq

/-- Top provider details, from src/types.rs (struct TopProvider). -/
structure TopProvider where
  context_length : Option Nat
  max_completion_tokens : Option Nat
  is_moderated : Option Bool
deriving DecidableEq

/-- Model architecture details, from src/types.rs (struct ModelArchitecture). -/
structure ModelArchitecture where
  modality : Option String
  tokenizer : Option String
  instruct_type : Option String
deriving DecidableEq

/-- Model information, from src/types.rs (struct Model). -/
structure Model where
  id : String
  name : String
  description : Option String
  context_length : Nat
  pricing : ModelPricing
  top_provider : Option TopProvider
  architecture : Option ModelArchitecture
deriving DecidableEq

/-- List of models, from src/types.rs (struct ModelList). -/
structure ModelList where
  data : List Model
deriving DecidableEq

/-- Client::get_model from src/client.rs, given the catalog that
list_models returned: `find` the first model whose id equals model_id,
`ok_or_else` a NotFound error with the formatted message. -/
def get_model (models : ModelList) (model_id : String) : Except OpenRouterError Model :=
  match models.data.find? (fun m => m.id == model_id) with
  | some m => .ok m
  | none => .error (.NotFound ("Model not found: " ++ model_id))

/-- Message role, from src/types.rs (enum Role). -/
inductive Role where
  | System
  | User
  | Assistant
  | Tool
deriving DecidableEq

/-- Function call details, from src/types.rs (struct FunctionCall). -/
structure FunctionCall where
  name : String
  arguments : String
deriving DecidableEq

/-- Tool call made by the assistant, from src/types.rs (struct ToolCall). -/
structure ToolCall where
  id : String
  tool_type : String
  function : FunctionCall
deriving DecidableEq

/-- A message in the conversation, from src/types.rs (struct Message). -/
structure Message where
  role : Role
  content : Option String
  tool_calls : Option (List ToolCall)
  tool_call_id : Option String
deriving DecidableEq

/-- A completion choice, from src/types.rs (struct Choice). -/
structure Choice where
  index : Nat
  message : Message
  finish_reason : Option String
deriving DecidableEq

/-- Token usage statistics, from src/types.rs (struct Usage). -/
structure Usage where
  prompt_tokens : Nat
  completion_tokens : Nat
  total_tokens : Nat
deriving DecidableEq

/-- Response from creating a chat completion, from src/types.rs
(struct CreateChatCompletionResponse). -/
structure CreateChatCompletionResponse where
  id : String
  object : String
  created : Nat
  model : String
  choices : List Choice
  usage : Option Usage
deriving DecidableEq

/-- CreateChatCompletionResponse::content from src/types.rs: first
choice's message content, if any. -/
def CreateChatCompletionResponse.content (r : CreateChatCompletionResponse) :
    Option String :=
  r.choices.head?.bind fun c => c.message.content

/-- CreateChatCompletionResponse::tool_calls from src/types.rs: first
choice's tool calls, if any. -/
def CreateChatCompletionResponse.tool_calls (r : CreateChatCompletionResponse) :
    Option (List ToolCall) :=
  r.choices.head?.bind fun c => c.message.tool_calls

/-- CreateChatCompletionResponse::has_tool_calls from src/types.rs:
whether the first choice exists and carries tool calls. -/
def CreateChatCompletionResponse.has_tool_calls
    (r : CreateChatCompletionResponse) : Bool :=
  match r.choices.head? with
  | some c => c.message.tool_calls.isSome
  | none => false

/-! Sample values used by the witness theorems. -/

/-- A sample vendor error envelope with no code field. -/
def sampleEnvelope : ErrorResponse :=
  { error := { message := "boom", error_type := none, code := none } }

/-- A sample envelope parser that always succeeds. -/
def sampleParseEnv : String → Option ErrorResponse :=
  fun _ => some sampleEnvelope

/-- A sample envelope parser that always fails. -/
def sampleParseEnvFail : String → Option ErrorResponse :=
  fun _ => none

/-- A sample success-path decoder that always fails. -/
def sampleDecode : String → Except String Unit :=
  fun _ => .error "bad json"

/-- C1: for statuses 401, 402, 403, 404, 429 and every status in 500–599,
with a body parsing as the vendor error envelope, classification returns
exactly the error kind of the §4.2 table, regardless of the envelope's
code field; 401 discards the envelope message in favour of the fixed
"invalid API key" rendering. -/
theorem C1_status_table {T : Type} (decode : String → Except String T)
    (parseEnv : String → Option ErrorResponse)
    (status : Nat) (hdr : Option String) (body : String) (er : ErrorResponse)
    (hparse : parseEnv body = some er) :
    (status = 401 →
      handleResponse decode parseEnv status hdr body = .error .Unauthorized ∧
      OpenRouterError.Unauthorized.display = "Unauthorized: invalid API key") ∧
    (status = 402 → handleResponse decode parseEnv status hdr body
        = .error (.InsufficientCredits er.error.message)) ∧
    (status = 403 → handleResponse decode parseEnv status hdr body
        = .error (.Forbidden er.error.message)) ∧
    (status = 404 → handleResponse decode parseEnv status hdr body
        = .error (.NotFound er.error.message)) ∧
    (status = 429 → handleResponse decode parseEnv status hdr body
        = .error (.RateLimited ((parseRetryAfter hdr).getD 60))) ∧
    (500 ≤ status → status ≤ 599 → handleResponse decode parseEnv status hdr body
        = .error (.ServerError er.error.message)) := by
  refine ⟨?_, ?_, ?_, ?_, ?_, ?_⟩
  · rintro rfl
    exact ⟨by simp [handleResponse, hparse], rfl⟩
  · rintro rfl
    simp [handleResponse, hparse]
  · rintro rfl
    simp [handleResponse, hparse]
  · rintro rfl
    simp [handleResponse, hparse]
  · rintro rfl
    simp [handleResponse, hparse]
  · intro h5 h5'
    rw [handleResponse, if_neg (by omega), hparse]
    simp only
    rw [if_neg (by omega), if_neg (by omega), if_neg (by omega), if_neg (by omega),
      if_neg (by omega), if_pos (by omega)]

/-- Witness for C1 at status 401 with a concrete envelope. -/
theorem C1_witness :
    handleResponse sampleDecode sampleParseEnv 401 none "b" = .error .Unauthorized ∧
    OpenRouterError.Unauthorized.display = "Unauthorized: invalid API key" :=
  (C1_status_table sampleDecode sampleParseEnv 401 none "b" sampleEnvelope rfl).1 rfl

/-- C3: for every non-2xx status and a body that does not parse as the
vendor error envelope, classification returns the generic Api error with
that status and the raw body text; being a total function of its inputs,
it fails in no other way. -/
theorem C3_unparseable_error_body {T : Type} (decode : String → Except String T)
    (parseEnv : String → Option ErrorResponse)
    (status : Nat) (hdr : Option String) (body : String)
    (hns : ¬(200 ≤ status ∧ status < 300))
    (hparse : parseEnv body = none) :
    handleResponse decode parseEnv status hdr body = .error (.Api status body) := by
  rw [handleResponse, if_neg hns, hparse]

/-- Witness for C3 at status 404 with an unparseable body. -/
theorem C3_witness :
    handleResponse sampleDecode sampleParseEnvFail 404 none "raw"
      = .error (.Api 404 "raw") :=
  C3_unparseable_error_body sampleDecode sampleParseEnvFail 404 none "raw"
    (by omega) rfl

/-- C8: for every 2xx status with a body the expected-shape decoder
rejects, the result is the Json error kind carrying the decoder's
message, never a success value and never an HTTP-derived error. -/
theorem C8_decode_failure_is_json_error {T : Type}
    (decode : String → Except String T)
    (parseEnv : String → Option ErrorResponse)
    (status : Nat) (hdr : Option String) (body : String) (e : String)
    (h2xx : 200 ≤ status ∧ status < 300)
    (hdec : decode body = .error e) :
    handleResponse decode parseEnv status hdr body = .error (.Json e) := by
  rw [handleResponse, if_pos h2xx, hdec]

/-- Witness for C8 at status 200 with a failing decoder. -/
theorem C8_witness :
    handleResponse sampleDecode sampleParseEnv 200 none "b"
      = .error (.Json "bad json") :=
  C8_decode_failure_is_json_error sampleDecode sampleParseEnv 200 none "b"
    "bad json" (by omega) rfl

/-- C9: no input to response classification produces the
ContextLengthExceeded error kind; the variant exists in the taxonomy but
no classification path reaches it. -/
theorem C9_no_context_length_exceeded {T : Type} (decode : String → Except String T)
    (parseEnv : String → Option ErrorResponse)
    (status : Nat) (hdr : Option String) (body : String) (m : String) :
    handleResponse decode parseEnv status hdr body
      ≠ .error (.ContextLengthExceeded m) := by
  simp only [handleResponse]
  split
  · split <;> simp
  · split
    · split_ifs <;> simp
    · simp

/-- Witness for C9 at a concrete input. -/
theorem C9_witness :
    handleResponse sampleDecode sampleParseEnv 500 none "b"
      ≠ .error (.ContextLengthExceeded "m") :=
  C9_no_context_length_exceeded sampleDecode sampleParseEnv 500 none "b" "m"

/-- C10: on a chat-completion response whose choices list is empty, the
accessors content and tool_calls return none and has_tool_calls returns
false; all three are total. -/
theorem C10_empty_choices_accessors (r : CreateChatCompletionResponse)
    (h : r.choices = []) :
    r.content = none ∧ r.tool_calls = none ∧ r.has_tool_calls = false := by
  refine ⟨?_, ?_, ?_⟩ <;>
    simp [CreateChatCompletionResponse.content,
      CreateChatCompletionResponse.tool_calls,
      CreateChatCompletionResponse.has_tool_calls, h]

/-- A sample chat-completion response with no choices. -/
def sampleEmptyResponse : CreateChatCompletionResponse :=
  { id := "gen-1", object := "chat.completion", created := 0, model := "m",
    choices := [], usage := none }

/-- Witness for C10 on a concrete response with no choices. -/
theorem C10_witness :
    sampleEmptyResponse.content = none ∧
    sampleEmptyResponse.tool_calls = none ∧
    sampleEmptyResponse.has_tool_calls = false :=
  C10_empty_choices_accessors sampleEmptyResponse rfl

/-- C5: for a status that is non-2xx, none of 401, 402, 403, 404, 429,
and not in 500–599, with a body parsing as the vendor error envelope,
classification falls back to the envelope's code field: 400 gives
InvalidRequest, 404 gives ModelNotAvailable, anything else the generic
Api error. -/
theorem C5_vendor_code_fallback {T : Type} (decode : String → Except String T)
    (parseEnv : String → Option ErrorResponse)
    (status : Nat) (hdr : Option String) (body : String) (er : ErrorResponse)
    (hns : ¬(200 ≤ status ∧ status < 300))
    (h401 : status ≠ 401) (h402 : status ≠ 402) (h403 : status ≠ 403)
    (h404 : status ≠ 404) (h429 : status ≠ 429)
    (h5xx : ¬(500 ≤ status ∧ status ≤ 599))
    (hparse : parseEnv body = some er) :
    (er.error.code = some 400 → handleResponse decode parseEnv status hdr body
        = .error (.InvalidRequest er.error.message)) ∧
    (er.error.code = some 404 → handleResponse decode parseEnv status hdr body
        = .error (.ModelNotAvailable er.error.message)) ∧
    (er.error.code ≠ some 400 → er.error.code ≠ some 404 →
      handleResponse decode parseEnv status hdr body
        = .error (.Api status er.error.message)) := by
  have base : handleResponse decode parseEnv status hdr body = .error
      (if er.error.code = some 400 then .InvalidRequest er.error.message
       else if er.error.code = some 404 then .ModelNotAvailable er.error.message
       else .Api status er.error.message) := by
    rw [handleResponse, if_neg hns, hparse]
    simp only
    rw [if_neg h401, if_neg h402, if_neg h403, if_neg h404, if_neg h429, if_neg h5xx]
  refine ⟨?_, ?_, ?_⟩
  · intro hc
    rw [base, if_pos hc]
  · intro hc
    by_cases hc4 : er.error.code = some 400
    · rw [hc] at hc4
      exact absurd hc4 (by decide)
    · rw [base, if_neg hc4, if_pos hc]
  · intro hn4 hn44
    rw [base, if_neg hn4, if_neg hn44]

/-- A sample vendor error envelope with code 400. -/
def sampleEnvelope400 : ErrorResponse :=
  { error := { message := "boom", error_type := none, code := some 400 } }

/-- Witness for C5 at status 418 with vendor code 400. -/
theorem C5_witness :
    handleResponse sampleDecode (fun _ => some sampleEnvelope400) 418 none "b"
      = .error (.InvalidRequest "boom") :=
  (C5_vendor_code_fallback sampleDecode (fun _ => some sampleEnvelope400)
    418 none "b" sampleEnvelope400 (by omega) (by omega) (by omega) (by omega)
    (by omega) (by omega) (by omega) rfl).1 rfl

/-- Every ASCII digit is visible ASCII. -/
theorem all_digits_visible (l : List Char) (h : l.all isAsciiDigit = true) :
    l.all isVisibleAscii = true := by
  rw [List.all_eq_true] at h ⊢
  intro c hc
  have h1 := h c hc
  simp only [isAsciiDigit, Bool.and_eq_true, decide_eq_true_eq] at h1
  simp only [isVisibleAscii, Bool.or_eq_true, Bool.and_eq_true, decide_eq_true_eq]
  omega

/-- Whenever the u64 parse of a string succeeds, the header-value to_str
conversion also succeeds (the string consists of an optional sign and
digits, all visible ASCII). -/
theorem headerValueToStr_of_parseU64 (s : String) (R : Nat)
    (h : parseU64 s = some R) : headerValueToStr s = some s := by
  have hv : s.data.all isVisibleAscii = true := by
    simp only [parseU64] at h
    by_cases he : s.data.isEmpty
    · rw [if_pos he] at h
      cases h
    · rw [if_neg he] at h
      by_cases hsign : s.data.head? = some '+'
      · rw [if_pos hsign] at h
        by_cases hte : s.data.tail.isEmpty
        · rw [if_pos hte] at h
          cases h
        · rw [if_neg hte] at h
          by_cases hall : s.data.tail.all isAsciiDigit = true
          · cases hcs : s.data with
            | nil =>
              rw [hcs] at he
              simp at he
            | cons c t =>
              rw [hcs] at hsign
              simp only [List.head?_cons, Option.some.injEq] at hsign
              rw [List.all_cons]
              have ht : t.all isVisibleAscii = true := by
                apply all_digits_visible
                rw [hcs] at hall
                simpa using hall
              rw [ht, Bool.and_true]
              rw [hsign]
              decide
          · rw [if_neg hall] at h
            cases h
      · rw [if_neg hsign] at h
        rw [if_neg he] at h
        by_cases hall : s.data.all isAsciiDigit = true
        · exact all_digits_visible _ hall
        · rw [if_neg hall] at h
          cases h
  rw [headerValueToStr, if_pos hv]

/-- C4: for status 429 with a body parsing as the vendor error envelope,
a present retry-after header whose u64 parse yields R gives
RateLimited R, while an absent or unparseable header gives
RateLimited 60. -/
theorem C4_retry_after_handling {T : Type} (decode : String → Except String T)
    (parseEnv : String → Option ErrorResponse)
    (hdr : Option String) (body : String) (er : ErrorResponse)
    (hparse : parseEnv body = some er) :
    (∀ s R, hdr = some s → parseU64 s = some R →
        handleResponse decode parseEnv 429 hdr body = .error (.RateLimited R)) ∧
    ((hdr = none ∨ ∃ s, hdr = some s ∧ parseU64 s = none) →
        handleResponse decode parseEnv 429 hdr body = .error (.RateLimited 60)) := by
  have hbase : handleResponse decode parseEnv 429 hdr body
      = .error (.RateLimited ((parseRetryAfter hdr).getD 60)) := by
    simp [handleResponse, hparse]
  constructor
  · rintro s R rfl hR
    rw [hbase]
    have hp : parseRetryAfter (some s) = some R := by
      rw [parseRetryAfter]
      simp [headerValueToStr_of_parseU64 s R hR, hR]
    rw [hp]
    rfl
  · rintro (rfl | ⟨s, rfl, hnone⟩)
    · rw [hbase]
      rfl
    · rw [hbase]
      have hp : parseRetryAfter (some s) = none := by
        rw [parseRetryAfter]
        cases hts : headerValueToStr s with
        | none => simp [hts]
        | some s2 =>
          have hs2 : s2 = s := by
            rw [headerValueToStr] at hts
            split at hts
            · cases hts
              rfl
            · cases hts
          rw [hs2] at hts
          simp [hts, hnone]
      rw [hp]
      rfl

/-- Witness for C4 with a concrete numeric retry-after header. -/
theorem C4_witness :
    handleResponse sampleDecode sampleParseEnv 429 (some "17") "b"
      = .error (.RateLimited 17) :=
  (C4_retry_after_handling sampleDecode sampleParseEnv (some "17") "b"
    sampleEnvelope rfl).1 "17" 17 rfl (by decide)

/-- List.find? returns the first element satisfying the predicate, with
all earlier elements failing it, or none when no element satisfies it. -/
theorem find?_first {α : Type} (p : α → Bool) (l : List α) :
    (∃ i a, l.get? i = some a ∧ p a = true ∧
        (∀ j b, j < i → l.get? j = some b → p b = false) ∧ l.find? p = some a)
    ∨ ((∀ a ∈ l, p a = false) ∧ l.find? p = none) := by
  induction l with
  | nil =>
    right
    refine ⟨?_, rfl⟩
    intro a ha
    cases ha
  | cons x xs ih =>
    by_cases hx : p x = true
    · left
      refine ⟨0, x, rfl, hx, ?_, ?_⟩
      · intro j b hj
        exact absurd hj (Nat.not_lt_zero j)
      · rw [List.find?_cons_of_pos _ hx]
    · have hx' : p x = false := by
        cases hpx : p x
        · rfl
        · exact absurd hpx hx
      rcases ih with ⟨i, a, hget, hpa, hmin, hfind⟩ | ⟨hall, hfind⟩
      · left
        refine ⟨i + 1, a, ?_, hpa, ?_, ?_⟩
        · simpa using hget
        · intro j b hj hgb
          cases j with
          | zero =>
            simp only [List.get?_cons_zero, Option.some.injEq] at hgb
            rw [← hgb]
            exact hx'
          | succ j2 =>
            apply hmin j2 b (by omega)
            simpa using hgb
        · rw [List.find?_cons_of_neg _ hx]
          exact hfind
      · right
        refine ⟨?_, ?_⟩
        · intro a ha
          rcases List.mem_cons.1 ha with rfl | hmem
          · exact hx'
          · exact hall a hmem
        · rw [List.find?_cons_of_neg _ hx]
          exact hfind

/-- C7: get_model returns the first model of the catalog, in catalog
order, whose id equals the requested id, and the NotFound error with the
formatted message when no model matches; earlier entries never match, so
catalog order decides among duplicates. -/
theorem C7_get_model_first_match (models : ModelList) (model_id : String) :
    (∃ i m, models.data.get? i = some m ∧ m.id = model_id ∧
        (∀ j m2, j < i → models.data.get? j = some m2 → m2.id ≠ model_id) ∧
        get_model models model_id = .ok m)
    ∨ ((∀ m ∈ models.data, m.id ≠ model_id) ∧
        get_model models model_id
          = .error (.NotFound ("Model not found: " ++ model_id))) := by
  rcases find?_first (fun m => m.id == model_id) models.data with
    ⟨i, m, hget, hp, hmin, hfind⟩ | ⟨hall, hfind⟩
  · left
    refine ⟨i, m, hget, by simpa using hp, ?_, ?_⟩
    · intro j m2 hj hg
      have hb := hmin j m2 hj hg
      simpa using hb
    · rw [get_model, hfind]
  · right
    refine ⟨?_, ?_⟩
    · intro m hm
      have hb := hall m hm
      simpa using hb
    · rw [get_model, hfind]

/-- C2, counterexample to the claim as stated: an api key containing a
line feed (a character forbidden in HTTP header values) makes
ApiKeyAuth::apply panic through the unwrap on HeaderValue parsing,
modelled here as the none outcome, instead of returning an error. -/
theorem C2_apply_panics_on_control_chars :
    ApiKeyAuth.apply (ApiKeyAuth.new "bad\nkey") [] = none := by
  rfl

/-- C6: with well-formed header values, apply on an empty header map
sets exactly Authorization (always, to Bearer plus the key),
HTTP-Referer (iff site_url is configured), and X-Title (iff site_name is
configured), and nothing else. -/
theorem C6_apply_sets_exact_headers (key : String) (url sname : Option String)
    (hk : key.data.all isValidHeaderValueByte = true)
    (hu : ∀ u, url = some u → u.data.all isValidHeaderValueByte = true)
    (hn : ∀ n, sname = some n → n.data.all isValidHeaderValueByte = true) :
    ApiKeyAuth.apply { api_key := key, site_url := url, site_name := sname } []
      = some ([("Authorization", "Bearer " ++ key)]
          ++ (match url with | some u => [("HTTP-Referer", u)] | none => [])
          ++ (match sname with | some n => [("X-Title", n)] | none => [])) := by
  have hbk : ("Bearer " ++ key).data.all isValidHeaderValueByte = true := by
    rw [String.data_append, List.all_append, hk, Bool.and_true]
    decide
  have hpk : parseHeaderValue ("Bearer " ++ key) = some ("Bearer " ++ key) := by
    rw [parseHeaderValue, if_pos hbk]
  cases url with
  | none =>
    cases sname with
    | none =>
      simp [ApiKeyAuth.apply, hpk, insertHeader]
    | some n =>
      have hpn : parseHeaderValue n = some n := by
        rw [parseHeaderValue, if_pos (hn n rfl)]
      simp [ApiKeyAuth.apply, hpk, hpn, insertHeader]
  | some u =>
    have hpu : parseHeaderValue u = some u := by
      rw [parseHeaderValue, if_pos (hu u rfl)]
    cases sname with
    | none =>
      simp [ApiKeyAuth.apply, hpk, hpu, insertHeader]
    | some n =>
      have hpn : parseHeaderValue n = some n := by
        rw [parseHeaderValue, if_pos (hn n rfl)]
      simp [ApiKeyAuth.apply, hpk, hpu, hpn, insertHeader]

/-- Witness for C6 with a key, a site url and a site name. -/
theorem C6_witness :
    ApiKeyAuth.apply
        { api_key := "k1", site_url := some "https://a.example",
          site_name := some "My App" } []
      = some [("Authorization", "Bearer k1"),
          ("HTTP-Referer", "https://a.example"), ("X-Title", "My App")] := by
  have h := C6_apply_sets_exact_headers "k1" (some "https://a.example")
    (some "My App") (by decide)
    (by intro u hu; cases hu; decide)
    (by intro n hn; cases hn; decide)
  simpa using h

end OpenRouter
